import Mathlib

/-
Verification development for the Kineforge node-studio pipeline.

The embedding below follows two source files:
  * `src/components/studio/NodeStudio.tsx` — the React node studio.  Its
    per-frame `runFrame` closure extracts face/hand metrics from the detector
    results, builds the raw control vector, and applies per-channel
    exponential smoothing against `runtime.smoothedControls`.
  * an unnamed litegraph prototype (part_000) — `FaceExtractNode`,
    `HandExtractNode`, `GestureMapperNode` compute the same kind of metrics.

JavaScript numbers are modelled as real numbers; `Math.hypot` is modelled as
`Real.sqrt` of the sum of squares.  Optional values (`a?.b`, `?? d`) are
modelled with `Option`.
-/

namespace Kineforge

/-- A tracked landmark: a normalized 2-D point (interface `Landmark`). -/
structure Landmark where
  x : ℝ
  y : ℝ

/-- `clamp(value, min, max) = Math.max(min, Math.min(max, value))`
(NodeStudio.tsx `clamp` / part_000 `clamp`). -/
noncomputable def clamp (value lo hi : ℝ) : ℝ :=
  max lo (min hi value)

/-- `distance2d(a, b)`: returns `0` when either landmark is missing,
otherwise `Math.hypot(a.x - b.x, a.y - b.y)`. -/
noncomputable def distance2d : Option Landmark → Option Landmark → ℝ
  | some a, some b => Real.sqrt ((a.x - b.x) ^ 2 + (a.y - b.y) ^ 2)
  | _, _ => 0

/-- `interface FaceMetrics` from NodeStudio.tsx. -/
structure FaceMetrics where
  count : ℕ
  noseX : ℝ
  noseY : ℝ
  jaw : ℝ

/-- `interface HandMetrics` from NodeStudio.tsx. -/
structure HandMetrics where
  count : ℕ
  pinch : ℝ
  palmY : ℝ

/-- `interface ControlsMetrics` from NodeStudio.tsx: the five-channel
control vector. -/
structure ControlsMetrics where
  tilt : ℝ
  lift : ℝ
  pinch : ℝ
  jaw : ℝ
  presence : ℝ

/-- `EMPTY_CONTROLS` from NodeStudio.tsx. -/
noncomputable def EMPTY_CONTROLS : ControlsMetrics :=
  { tilt := 0, lift := 0, pinch := 0, jaw := 0, presence := 0 }

/-- Face metrics computed inside `runFrame` (NodeStudio.tsx lines 1246-1261):
`facePrimary = faces[0]`, `nose = facePrimary?.[1] ?? facePrimary?.[4] ??
facePrimary?.[0]`, `upperLip = facePrimary?.[13]`, `lowerLip =
facePrimary?.[14]`, `noseX = nose?.x ?? 0.5`, `noseY = nose?.y ?? 0.5`,
`jaw = clamp(distance2d(upperLip, lowerLip), 0, 0.085)`. -/
noncomputable def faceMetricsOf (faces : List (List Landmark)) : FaceMetrics :=
  let facePrimary := faces.head?
  let nose := (facePrimary.bind fun f => f[1]?) <|>
      ((facePrimary.bind fun f => f[4]?) <|> (facePrimary.bind fun f => f[0]?))
  let upperLip := facePrimary.bind fun f => f[13]?
  let lowerLip := facePrimary.bind fun f => f[14]?
  { count := faces.length
    noseX := (nose.map Landmark.x).getD 0.5
    noseY := (nose.map Landmark.y).getD 0.5
    jaw := clamp (distance2d upperLip lowerLip) 0 0.085 }

/-- Hand metrics computed inside `runFrame` (NodeStudio.tsx lines 1247-1269):
`handPrimary = hands[0]`, `wrist = handPrimary?.[0]`,
`thumbTip = handPrimary?.[4]`, `indexTip = handPrimary?.[8]`,
`pinchDistance = distance2d(thumbTip, indexTip)`,
`pinch = clamp((0.125 - pinchDistance) / 0.085, 0, 1)`,
`palmY = wrist?.y ?? 0.5`. -/
noncomputable def handMetricsOf (hands : List (List Landmark)) : HandMetrics :=
  let handPrimary := hands.head?
  let wrist := handPrimary.bind fun h => h[0]?
  let thumbTip := handPrimary.bind fun h => h[4]?
  let indexTip := handPrimary.bind fun h => h[8]?
  let pinchDistance := distance2d thumbTip indexTip
  { count := hands.length
    pinch := clamp ((0.125 - pinchDistance) / 0.085) 0 1
    palmY := (wrist.map Landmark.y).getD 0.5 }

/-- `rawControls` built inside `runFrame` (NodeStudio.tsx lines 1271-1277). -/
noncomputable def rawControlsOf (faceMetrics : FaceMetrics) (handMetrics : HandMetrics) :
    ControlsMetrics :=
  { tilt := faceMetrics.noseX - 0.5
    lift := 1 - handMetrics.palmY
    pinch := handMetrics.pinch
    jaw := faceMetrics.jaw
    presence := max (if faceMetrics.count ≠ 0 then 1 else 0)
      (if handMetrics.count ≠ 0 then 1 else 0) }

/-- `const smoothingWhenTracking = 0.22` (NodeStudio.tsx line 1280). -/
noncomputable def smoothingWhenTracking : ℝ := 0.22

/-- `const smoothingWhenMissingHand = 0.42` (NodeStudio.tsx line 1281). -/
noncomputable def smoothingWhenMissingHand : ℝ := 0.42

/-- The smoothing update building `controls` from `previousControls` and
`rawControls` inside `runFrame` (NodeStudio.tsx lines 1282-1291).  The hand
count stands for `handMetrics.count`. -/
noncomputable def smoothStep (previousControls rawControls : ControlsMetrics)
    (handCount : ℕ) : ControlsMetrics :=
  { tilt := previousControls.tilt +
      (rawControls.tilt - previousControls.tilt) * smoothingWhenTracking
    lift := previousControls.lift +
      (rawControls.lift - previousControls.lift) * smoothingWhenTracking
    pinch := previousControls.pinch +
      ((if 0 < handCount then rawControls.pinch else 0) - previousControls.pinch) *
        (if 0 < handCount then 0.26 else smoothingWhenMissingHand)
    jaw := previousControls.jaw + (rawControls.jaw - previousControls.jaw) * 0.2
    presence := previousControls.presence +
      (rawControls.presence - previousControls.presence) * 0.3 }

/-- One full extraction-plus-smoothing step of `runFrame`
(NodeStudio.tsx lines 1246-1292). -/
noncomputable def runFrameControls (previousControls : ControlsMetrics)
    (faces hands : List (List Landmark)) : ControlsMetrics :=
  smoothStep previousControls
    (rawControlsOf (faceMetricsOf faces) (handMetricsOf hands))
    (handMetricsOf hands).count

/-- The coefficient actually applied to the pinch channel in `smoothStep`:
`handMetrics.count > 0 ? 0.26 : smoothingWhenMissingHand`
(NodeStudio.tsx line 1288). -/
noncomputable def pinchAlphaApplied (handCount : ℕ) : ℝ :=
  if 0 < handCount then 0.26 else smoothingWhenMissingHand

/-- The target actually used for the pinch channel in `smoothStep`:
`handMetrics.count > 0 ? rawControls.pinch : 0` (NodeStudio.tsx line 1287). -/
noncomputable def pinchTargetApplied (rawControls : ControlsMetrics) (handCount : ℕ) : ℝ :=
  if 0 < handCount then rawControls.pinch else 0

/-- Modelled from the spec, §4.4: "Applies exponential smoothing per channel:
`next = previous + (raw - previous) * alpha`."  Used to compare each channel
of the implemented `smoothStep` with the spec formula. -/
noncomputable def smoothChannelSpec (previous raw alpha : ℝ) : ℝ :=
  previous + (raw - previous) * alpha

/-- `FaceExtractNode.prototype.onExecute` metric computation from the
litegraph prototype (part_000 lines 327-348): defaults
`{count, noseX: 0.5, noseY: 0.5, jaw: 0}`; when a face is present,
`nose = faces[0][1] || faces[0][4] || faces[0][0]` sets `noseX`/`noseY`
when found, and `jaw = distance2d(faces[0][13], faces[0][14])`
(not clamped). -/
noncomputable def faceExtractMetrics (faces : List (List Landmark)) : FaceMetrics :=
  match faces.head? with
  | none => { count := faces.length, noseX := 0.5, noseY := 0.5, jaw := 0 }
  | some f0 =>
    let nose := f0[1]? <|> (f0[4]? <|> f0[0]?)
    let upperLip := f0[13]?
    let lowerLip := f0[14]?
    { count := faces.length
      noseX := (nose.map Landmark.x).getD 0.5
      noseY := (nose.map Landmark.y).getD 0.5
      jaw := distance2d upperLip lowerLip }

/-- `HandExtractNode.prototype.onExecute` metric computation from the
litegraph prototype (part_000 lines 372-389): defaults
`{count, pinch: 0, palmY: 0.5}`; when a hand is present,
`pinch = clamp(1 - distance2d(hand[4], hand[8]) * 8, 0, 1)` and
`palmY = hand[0]?.y ?? 0.5`. -/
noncomputable def handExtractMetrics (hands : List (List Landmark)) : HandMetrics :=
  match hands.head? with
  | none => { count := hands.length, pinch := 0, palmY := 0.5 }
  | some hand =>
    let thumbTip := hand[4]?
    let indexTip := hand[8]?
    let wrist := hand[0]?
    let pinchDistance := distance2d thumbTip indexTip
    { count := hands.length
      pinch := clamp (1 - pinchDistance * 8) 0 1
      palmY := (wrist.map Landmark.y).getD 0.5 }

/-- Iterating `smoothStep` with the raw vector and hand count held fixed
(the repeated-ticks scenario of spec §8). -/
noncomputable def smoothIterate (rawControls : ControlsMetrics) (handCount : ℕ)
    (start : ControlsMetrics) : ℕ → ControlsMetrics
  | 0 => start
  | n + 1 => smoothStep (smoothIterate rawControls handCount start n) rawControls handCount

/-- Iterating `smoothStep` with a possibly different raw vector and hand
count on every tick. -/
noncomputable def smoothTrace (start : ControlsMetrics) (raws : ℕ → ControlsMetrics)
    (handCounts : ℕ → ℕ) : ℕ → ControlsMetrics
  | 0 => start
  | n + 1 => smoothStep (smoothTrace start raws handCounts n) (raws n) (handCounts n)

/-- `type PreviewKey` from NodeStudio.tsx. -/
inductive PreviewKey
  | webcam
  | face
  | hand
  | overlay
  | mapper
  | stage
  deriving DecidableEq

/-- `type NodeKind` from NodeStudio.tsx. -/
inductive NodeKind
  | source
  | extract
  | compose
  | map
  | output
  deriving DecidableEq

/-- `interface StudioNodeData` from NodeStudio.tsx (the icon, a React
component reference, is modelled as a string name). -/
structure StudioNodeData where
  title : String
  subtitle : String
  kind : NodeKind
  accent : String
  previewSource : PreviewKey
  metrics : List String
  previewEnabled : Bool
  previewUrl : Option String
  previewHint : String
  hasInput : Bool
  hasOutput : Bool
  deriving DecidableEq

/-- A studio graph node: stable id plus its data (`Node<StudioNodeData>`). -/
structure StudioNode where
  id : String
  data : StudioNodeData
  deriving DecidableEq

/-- `PREVIEW_HINTS` from NodeStudio.tsx. -/
def PREVIEW_HINTS : PreviewKey → String
  | PreviewKey.webcam => "Camera preview appears here"
  | PreviewKey.face => "Face landmarks preview"
  | PreviewKey.hand => "Hand landmarks preview"
  | PreviewKey.overlay => "Overlay preview"
  | PreviewKey.mapper => "Control map scope"
  | PreviewKey.stage => "Final output mirror"

/-- `PREVIEW_OFF_HINT` from NodeStudio.tsx. -/
def PREVIEW_OFF_HINT : String := "Preview off · click eye icon"

/-- `DEFAULT_METRICS_BY_SOURCE` from NodeStudio.tsx. -/
def DEFAULT_METRICS_BY_SOURCE : PreviewKey → List String
  | PreviewKey.webcam => ["idle", "camera not started"]
  | PreviewKey.face => ["faces: 0", "jaw: 0.000"]
  | PreviewKey.hand => ["hands: 0", "pinch: 0%"]
  | PreviewKey.overlay => ["face mesh off", "hand mesh off"]
  | PreviewKey.mapper => ["tilt: 0.00", "lift: 0.00"]
  | PreviewKey.stage => ["presence: 0.00", "radius: 0"]

/-- `toggleNodePreview` from NodeStudio.tsx (lines 764-785): maps over the
node list; a node whose id differs from `nodeId` is returned unchanged;
the target node flips `previewEnabled`, keeps `previewUrl` only while the
preview stays enabled, and switches the hint accordingly. -/
def toggleNodePreview (nodes : List StudioNode) (nodeId : String) : List StudioNode :=
  nodes.map fun node =>
    if node.id ≠ nodeId then node
    else
      let nextEnabled := !node.data.previewEnabled
      { node with data :=
          { node.data with
            previewEnabled := nextEnabled
            previewUrl := if nextEnabled then node.data.previewUrl else none
            previewHint := if nextEnabled then PREVIEW_HINTS node.data.previewSource
              else PREVIEW_OFF_HINT } }

/-- The six preview keys in the order `updateNodeSnapshots` visits them
(webcam, face, hand, overlay, mapper, stage blocks). -/
def previewKeys : List PreviewKey :=
  [PreviewKey.webcam, PreviewKey.face, PreviewKey.hand,
   PreviewKey.overlay, PreviewKey.mapper, PreviewKey.stage]

/-- The `activeSources` set built at the top of `updateNodeSnapshots`
(NodeStudio.tsx lines 1077-1082): a preview source is active when some node
with that `previewSource` has `previewEnabled`. -/
def isActiveSource (nodes : List StudioNode) (key : PreviewKey) : Bool :=
  nodes.any fun node => node.data.previewEnabled && decide (node.data.previewSource = key)

/-- Whether `updateNodeSnapshots` encodes a preview image for `key` during
one pass: `ensurePreviewContext` returns a context only for active sources
(NodeStudio.tsx lines 1086-1098), and the stage block additionally requires
the stage canvas to be mounted (line 1150).  Canvas and 2d-context creation
are modelled as succeeding, as they do in a browser tick. -/
def encodesPreview (nodes : List StudioNode) (stageCanvasPresent : Bool)
    (key : PreviewKey) : Bool :=
  isActiveSource nodes key &&
    (match key with
     | PreviewKey.stage => stageCanvasPresent
     | _ => true)

/-- Number of preview images encoded (`canvasToPreviewUrl` calls) in one
full `updateNodeSnapshots` pass. -/
def encodedPreviewCount (nodes : List StudioNode) (stageCanvasPresent : Bool) : ℕ :=
  (previewKeys.filter fun key => encodesPreview nodes stageCanvasPresent key).length

/-- The mutable runtime of the studio (`interface RuntimeState`): the
landmarker handles are modelled by readiness flags and the preview canvas
record is left out (pure rendering resources). -/
structure RuntimeState where
  stream : Bool
  rafId : Option ℕ
  modelsReady : Bool
  frameCount : ℕ
  lastFrameTimestamp : ℝ
  lastUiUpdate : ℝ
  smoothedControls : ControlsMetrics

/-- The runtime as initialised in `runtimeRef` (NodeStudio.tsx lines
744-762): no stream, no scheduled frame, zeroed counters and
`smoothedControls = { ...EMPTY_CONTROLS }`. -/
noncomputable def initialRuntime : RuntimeState :=
  { stream := false
    rafId := none
    modelsReady := false
    frameCount := 0
    lastFrameTimestamp := 0
    lastUiUpdate := 0
    smoothedControls := EMPTY_CONTROLS }

/-- The studio component state touched by the lifecycle actions:
the runtime ref, the node list, whether the hidden video element has a
source attached, and the status/debug strings. -/
structure StudioState where
  runtime : RuntimeState
  nodes : List StudioNode
  videoSrcAttached : Bool
  status : String
  statusText : String
  debugText : String

/-- `stopLive` from NodeStudio.tsx (lines 917-937): cancels the scheduled
frame, stops and drops the media stream, detaches the video source and sets
the status to idle / "Camera stopped".  Nothing else is written. -/
def stopLive (s : StudioState) : StudioState :=
  { s with
    runtime := { s.runtime with rafId := none, stream := false }
    videoSrcAttached := false
    status := "idle"
    statusText := "Camera stopped" }

/-- One of the six entries of `INITIAL_NODES` (NodeStudio.tsx lines
252-361); previews start disabled with the off hint. -/
def initialNode (id title subtitle : String) (kind : NodeKind) (accent : String)
    (previewSource : PreviewKey) (hasInput hasOutput : Bool) : StudioNode :=
  { id := id
    data :=
      { title := title
        subtitle := subtitle
        kind := kind
        accent := accent
        previewSource := previewSource
        metrics := DEFAULT_METRICS_BY_SOURCE previewSource
        previewEnabled := false
        previewUrl := none
        previewHint := PREVIEW_OFF_HINT
        hasInput := hasInput
        hasOutput := hasOutput } }

/-- `INITIAL_NODES` from NodeStudio.tsx (lines 252-361). -/
def INITIAL_NODES : List StudioNode :=
  [initialNode "webcam" "Webcam Source" "Live performer feed" NodeKind.source
     "#bef264" PreviewKey.webcam false true,
   initialNode "face" "Face Extract" "Landmarks + expression cues" NodeKind.extract
     "#a3e635" PreviewKey.face true true,
   initialNode "hand" "Hand Extract" "Landmarks + pinch strength" NodeKind.extract
     "#84cc16" PreviewKey.hand true true,
   initialNode "overlay" "Landmark Overlay" "Composed face + hand mesh" NodeKind.compose
     "#65a30d" PreviewKey.overlay true true,
   initialNode "mapper" "Gesture Mapper" "Transforms movement to controls" NodeKind.map
     "#d9f99d" PreviewKey.mapper true true,
   initialNode "stage" "Stage Output" "Realtime visual monitor feed" NodeKind.output
     "#84cc16" PreviewKey.stage true false]

/-- `resetLayout` from NodeStudio.tsx (lines 1348-1354): calls `stopLive`,
restores `INITIAL_NODES`, and rewrites the status and debug strings.
The runtime smoothing memory is not touched beyond what `stopLive` does. -/
def resetLayout (s : StudioState) : StudioState :=
  let s1 := stopLive s
  { s1 with
    nodes := INITIAL_NODES
    status := "idle"
    statusText := "Graph reset"
    debugText := "Graph reset. Click \"Start Live\". Node previews are off by default." }

/-- Scalar exponential-smoothing iteration with a fixed target and
coefficient: the shape shared by every channel of `smoothStep`. -/
noncomputable def expIter (x0 target alpha : ℝ) : ℕ → ℝ
  | 0 => x0
  | n + 1 => expIter x0 target alpha n + (target - expIter x0 target alpha n) * alpha

/-- A landmark inside the normalized frame, spec §3: `x, y ∈ [0,1]`. -/
def landmarkInUnit (p : Landmark) : Prop :=
  0 ≤ p.x ∧ p.x ≤ 1 ∧ 0 ≤ p.y ∧ p.y ≤ 1

/-- The documented ranges of the control vector, spec §3: `tilt ∈ [-0.5,0.5]`,
`lift ∈ [0,1]`, `pinch ∈ [0,1]`, `jaw ∈ [0, jawMax]` with `jawMax = 0.085`,
`presence ∈ [0,1]`. -/
def controlsInRange (c : ControlsMetrics) : Prop :=
  -0.5 ≤ c.tilt ∧ c.tilt ≤ 0.5 ∧ 0 ≤ c.lift ∧ c.lift ≤ 1 ∧
  0 ≤ c.pinch ∧ c.pinch ≤ 1 ∧ 0 ≤ c.jaw ∧ c.jaw ≤ 0.085 ∧
  0 ≤ c.presence ∧ c.presence ≤ 1

/-- A stale raw control vector whose pinch channel is still 1. -/
noncomputable def c3RawStale : ControlsMetrics :=
  { tilt := 0, lift := 0, pinch := 1, jaw := 0, presence := 0 }

/-- A stale raw control vector whose pinch channel is still 1. -/
noncomputable def c4RawStale : ControlsMetrics :=
  { tilt := 0, lift := 0, pinch := 1, jaw := 0, presence := 0 }

/-- A tick-indexed family of stale raw vectors with nonzero pinch. -/
noncomputable def c5RawsStale : ℕ → ControlsMetrics := fun _ =>
  { tilt := 0, lift := 0, pinch := 1, jaw := 0, presence := 0 }

/-- A starting control vector with a partially closed pinch. -/
noncomputable def c5Start : ControlsMetrics :=
  { tilt := 0, lift := 0, pinch := 0.75, jaw := 0, presence := 0 }

/-- A face point set whose lip landmarks (indices 13 and 14) are a full
frame height apart: their Euclidean distance is 1. -/
noncomputable def c6FaceList : List Landmark :=
  [⟨0, 0⟩, ⟨0, 0⟩, ⟨0, 0⟩, ⟨0, 0⟩, ⟨0, 0⟩, ⟨0, 0⟩, ⟨0, 0⟩, ⟨0, 0⟩,
   ⟨0, 0⟩, ⟨0, 0⟩, ⟨0, 0⟩, ⟨0, 0⟩, ⟨0, 0⟩, ⟨0, 0⟩, ⟨0, 1⟩]

/-- A studio state captured mid-session with a nonzero smoothed control
vector in the runtime memory. -/
noncomputable def c7State : StudioState :=
  { runtime :=
      { stream := true
        rafId := some 7
        modelsReady := true
        frameCount := 42
        lastFrameTimestamp := 100
        lastUiUpdate := 100
        smoothedControls := { tilt := 1, lift := 1, pinch := 1, jaw := 1, presence := 1 } }
    nodes := INITIAL_NODES
    videoSrcAttached := true
    status := "live"
    statusText := "Live capture running"
    debugText := "" }

/-- A single node whose preview is enabled (a spawned Gesture Mapper). -/
def c8OnNode : StudioNode :=
  { id := "gesture-mapper-1"
    data :=
      { title := "Gesture Mapper"
        subtitle := "Transforms movement to controls"
        kind := NodeKind.map
        accent := "#d9f99d"
        previewSource := PreviewKey.mapper
        metrics := DEFAULT_METRICS_BY_SOURCE PreviewKey.mapper
        previewEnabled := true
        previewUrl := none
        previewHint := PREVIEW_HINTS PreviewKey.mapper
        hasInput := true
        hasOutput := true } }

/-- A node set in which exactly `c8OnNode` has its preview enabled. -/
def c8Nodes : List StudioNode :=
  [initialNode "webcam" "Webcam Source" "Live performer feed" NodeKind.source
     "#bef264" PreviewKey.webcam false true,
   c8OnNode]

/-- A face-extract node with its preview enabled and a cached preview url. -/
def c10NodeA : StudioNode :=
  { id := "face"
    data :=
      { title := "Face Extract"
        subtitle := "Landmarks + expression cues"
        kind := NodeKind.extract
        accent := "#a3e635"
        previewSource := PreviewKey.face
        metrics := DEFAULT_METRICS_BY_SOURCE PreviewKey.face
        previewEnabled := true
        previewUrl := some "data:image/jpeg;base64,abc"
        previewHint := PREVIEW_HINTS PreviewKey.face
        hasInput := true
        hasOutput := true } }

/-- A hand-extract node with its preview disabled. -/
def c10NodeB : StudioNode :=
  initialNode "hand" "Hand Extract" "Landmarks + pinch strength" NodeKind.extract
    "#84cc16" PreviewKey.hand true true

/-- The two-node list used to exercise `toggleNodePreview`. -/
def c10Nodes : List StudioNode := [c10NodeA, c10NodeB]

/-- An optional index hit is a member of the list. -/
theorem mem_of_getElem_opt {α : Type} {l : List α} {i : ℕ} {a : α}
    (h : l[i]? = some a) : a ∈ l := by
  obtain ⟨hlt, rfl⟩ := List.getElem?_eq_some.mp h
  exact List.getElem_mem hlt

/-- The optional head of a list is a member of the list. -/
theorem mem_of_head_opt {α : Type} {l : List α} {a : α}
    (h : l.head? = some a) : a ∈ l := by
  cases l with
  | nil => simp at h
  | cons b t =>
    simp only [List.head?] at h
    injection h with h
    subst h
    exact List.mem_cons_self _ _

/-- A successful JavaScript-style fallback chain means one branch hit. -/
theorem orElse_eq_some {α : Type} {a b : Option α} {c : α}
    (h : (a <|> b) = some c) : a = some c ∨ b = some c := by
  cases a with
  | none => right; simpa using h
  | some x => left; simpa using h

/-- A landmark found through `head?.bind` indexing belongs to a point set of
the detection result. -/
theorem mem_of_bind_getElem {i : ℕ} {ls : List (List Landmark)} {p : Landmark}
    (h : (ls.head?.bind fun f => f[i]?) = some p) : ∃ f ∈ ls, p ∈ f := by
  rcases Option.bind_eq_some.mp h with ⟨f0, hf0, hget⟩
  exact ⟨f0, mem_of_head_opt hf0, mem_of_getElem_opt hget⟩

/-- `clamp` never goes below its lower bound. -/
theorem le_clamp (value lo hi : ℝ) : lo ≤ clamp value lo hi :=
  le_max_left _ _

/-- `clamp` never exceeds its upper bound (when the bounds are ordered). -/
theorem clamp_le (value lo hi : ℝ) (h : lo ≤ hi) : clamp value lo hi ≤ hi :=
  max_le h (min_le_left _ _)

/-- An exponential-smoothing step with coefficient in `[0,1]` stays inside
any interval containing both its state and its target. -/
theorem smooth_within (lo hi a b alpha : ℝ) (ha1 : lo ≤ a) (ha2 : a ≤ hi)
    (hb1 : lo ≤ b) (hb2 : b ≤ hi) (h0 : 0 ≤ alpha) (h1 : alpha ≤ 1) :
    lo ≤ a + (b - a) * alpha ∧ a + (b - a) * alpha ≤ hi := by
  constructor <;> nlinarith

/-- The pinch channel of `smoothStep`, written through the applied target
and coefficient. -/
theorem smoothStep_pinch (previousControls rawControls : ControlsMetrics)
    (handCount : ℕ) :
    (smoothStep previousControls rawControls handCount).pinch =
      previousControls.pinch +
        (pinchTargetApplied rawControls handCount - previousControls.pinch) *
          pinchAlphaApplied handCount := by
  simp [smoothStep, pinchTargetApplied, pinchAlphaApplied]

/-- The applied pinch coefficient is positive. -/
theorem pinchAlphaApplied_pos (handCount : ℕ) : 0 < pinchAlphaApplied handCount := by
  unfold pinchAlphaApplied
  split <;> norm_num [smoothingWhenMissingHand]

/-- The applied pinch coefficient is at most one. -/
theorem pinchAlphaApplied_le_one (handCount : ℕ) : pinchAlphaApplied handCount ≤ 1 := by
  unfold pinchAlphaApplied
  split <;> norm_num [smoothingWhenMissingHand]

/-- Error recurrence of the scalar smoothing iteration. -/
theorem expIter_error (x0 target alpha : ℝ) (n : ℕ) :
    target - expIter x0 target alpha (n + 1) =
      (1 - alpha) * (target - expIter x0 target alpha n) := by
  simp only [expIter]
  ring

/-- Closed form of the scalar smoothing error: geometric decay. -/
theorem expIter_error_pow (x0 target alpha : ℝ) :
    ∀ n, target - expIter x0 target alpha n = (1 - alpha) ^ n * (target - x0)
  | 0 => by simp [expIter]
  | n + 1 => by
    rw [expIter_error, expIter_error_pow x0 target alpha n, pow_succ]
    ring

/-- The absolute smoothing error never grows when the coefficient lies in
`[0,1]`. -/
theorem expIter_abs_error_mono (x0 target alpha : ℝ) (h0 : 0 ≤ alpha)
    (h1 : alpha ≤ 1) (n : ℕ) :
    |target - expIter x0 target alpha (n + 1)| ≤ |target - expIter x0 target alpha n| := by
  rw [expIter_error, abs_mul, abs_of_nonneg (show (0:ℝ) ≤ 1 - alpha by linarith)]
  exact mul_le_of_le_one_left (abs_nonneg _) (by linarith)

/-- With a positive coefficient the scalar smoothing error eventually stays
below any positive bound. -/
theorem expIter_eventually_close (x0 target alpha ε : ℝ) (h0 : 0 < alpha)
    (h1 : alpha ≤ 1) (hε : 0 < ε) :
    ∃ N, ∀ n, N ≤ n → |target - expIter x0 target alpha n| < ε := by
  by_cases hx : target - x0 = 0
  · exact ⟨0, fun n _ => by
      rw [expIter_error_pow, hx, mul_zero, abs_zero]; exact hε⟩
  · have hc : 0 < |target - x0| := abs_pos.mpr hx
    obtain ⟨N, hN⟩ :=
      exists_pow_lt_of_lt_one (div_pos hε hc) (show (1 : ℝ) - alpha < 1 by linarith)
    refine ⟨N, fun n hn => ?_⟩
    have hr0 : (0:ℝ) ≤ 1 - alpha := by linarith
    rw [expIter_error_pow, abs_mul, abs_pow, abs_of_nonneg hr0]
    have hle : (1 - alpha) ^ n ≤ (1 - alpha) ^ N :=
      pow_le_pow_of_le_one hr0 (by linarith) hn
    calc (1 - alpha) ^ n * |target - x0|
        ≤ (1 - alpha) ^ N * |target - x0| :=
          mul_le_mul_of_nonneg_right hle (le_of_lt hc)
      _ < ε / |target - x0| * |target - x0| := mul_lt_mul_of_pos_right hN hc
      _ = ε := div_mul_cancel₀ ε (ne_of_gt hc)

/-- The tilt channel of the fixed-input iteration is a scalar smoothing
iteration. -/
theorem smoothIterate_tilt (rawControls : ControlsMetrics) (handCount : ℕ)
    (start : ControlsMetrics) :
    ∀ n, (smoothIterate rawControls handCount start n).tilt =
      expIter start.tilt rawControls.tilt smoothingWhenTracking n
  | 0 => rfl
  | n + 1 => by
    simp [smoothIterate, smoothStep, expIter,
      smoothIterate_tilt rawControls handCount start n]

/-- The lift channel of the fixed-input iteration is a scalar smoothing
iteration. -/
theorem smoothIterate_lift (rawControls : ControlsMetrics) (handCount : ℕ)
    (start : ControlsMetrics) :
    ∀ n, (smoothIterate rawControls handCount start n).lift =
      expIter start.lift rawControls.lift smoothingWhenTracking n
  | 0 => rfl
  | n + 1 => by
    simp [smoothIterate, smoothStep, expIter,
      smoothIterate_lift rawControls handCount start n]

/-- The jaw channel of the fixed-input iteration is a scalar smoothing
iteration with coefficient `0.2`. -/
theorem smoothIterate_jaw (rawControls : ControlsMetrics) (handCount : ℕ)
    (start : ControlsMetrics) :
    ∀ n, (smoothIterate rawControls handCount start n).jaw =
      expIter start.jaw rawControls.jaw 0.2 n
  | 0 => rfl
  | n + 1 => by
    simp [smoothIterate, smoothStep, expIter,
      smoothIterate_jaw rawControls handCount start n]

/-- The presence channel of the fixed-input iteration is a scalar smoothing
iteration with coefficient `0.3`. -/
theorem smoothIterate_presence (rawControls : ControlsMetrics) (handCount : ℕ)
    (start : ControlsMetrics) :
    ∀ n, (smoothIterate rawControls handCount start n).presence =
      expIter start.presence rawControls.presence 0.3 n
  | 0 => rfl
  | n + 1 => by
    simp [smoothIterate, smoothStep, expIter,
      smoothIterate_presence rawControls handCount start n]

/-- The pinch channel of the fixed-input iteration is a scalar smoothing
iteration toward the applied pinch target. -/
theorem smoothIterate_pinch (rawControls : ControlsMetrics) (handCount : ℕ)
    (start : ControlsMetrics) :
    ∀ n, (smoothIterate rawControls handCount start n).pinch =
      expIter start.pinch (pinchTargetApplied rawControls handCount)
        (pinchAlphaApplied handCount) n
  | 0 => rfl
  | n + 1 => by
    rw [smoothIterate, smoothStep_pinch,
      smoothIterate_pinch rawControls handCount start n]
    rfl

/-- Claim C1, counterexample: on a frame where the detector returns an empty
hand list, the `runFrame` Metric Extractor yields `pinch = 1` (the missing
thumb and index landmarks give distance `0`, and
`clamp((0.125 - 0) / 0.085, 0, 1) = 1`), not the documented default `0`. -/
theorem c1_counterexample :
    (handMetricsOf []).pinch = 1 ∧ (handMetricsOf []).pinch ≠ 0 := by
  have h : (handMetricsOf []).pinch = 1 := by
    simp [handMetricsOf, distance2d, clamp]
    norm_num [min_def, max_def]
  refine ⟨h, ?_⟩
  rw [h]
  norm_num

/-- Claim C1 (amended): an empty detector list yields `count = 0` with
`noseX = noseY = 0.5` and `jaw = 0` for the face in both extractors and
`palmY = 0.5` for the hand in both; the prototype hand extractor defaults
`pinch` to `0`, while the `runFrame` extractor yields `pinch = 1` and the
smoothing stage instead substitutes `0` as the pinch target whenever the
hand count is zero. -/
theorem c1_empty_detection_defaults :
    faceMetricsOf [] = { count := 0, noseX := 0.5, noseY := 0.5, jaw := 0 } ∧
    (handMetricsOf []).count = 0 ∧ (handMetricsOf []).palmY = 0.5 ∧
    (handMetricsOf []).pinch = 1 ∧
    (∀ rawControls : ControlsMetrics, pinchTargetApplied rawControls 0 = 0) ∧
    faceExtractMetrics [] = { count := 0, noseX := 0.5, noseY := 0.5, jaw := 0 } ∧
    handExtractMetrics [] = { count := 0, pinch := 0, palmY := 0.5 } := by
  refine ⟨?_, rfl, ?_, ?_, ?_, ?_, ?_⟩
  · simp [faceMetricsOf, distance2d, clamp]
  · simp [handMetricsOf]
  · simp [handMetricsOf, distance2d, clamp]
    norm_num [min_def, max_def]
  · intro rawControls
    simp [pinchTargetApplied]
  · simp [faceExtractMetrics]
  · simp [handExtractMetrics]

/-- Claim C2, counterexample: the pinch coefficient while a hand is tracked
(`0.26`) is strictly smaller, not strictly greater, than the coefficient
while untracked (`smoothingWhenMissingHand = 0.42`). -/
theorem c2_counterexample :
    pinchAlphaApplied 1 < pinchAlphaApplied 0 ∧
    ¬ pinchAlphaApplied 0 < pinchAlphaApplied 1 := by
  norm_num [pinchAlphaApplied, smoothingWhenMissingHand]

/-- Claim C2 (amended): for every pair of previous and raw control vectors,
the pinch channel is smoothed with coefficient `0.26` while a hand is
tracked, and with the strictly larger coefficient
`smoothingWhenMissingHand = 0.42` (toward target `0`) when untracked. -/
theorem c2_pinch_alpha_smaller_when_tracked (handCount : ℕ) (h : 0 < handCount)
    (previousControls rawControls : ControlsMetrics) :
    (smoothStep previousControls rawControls handCount).pinch =
      previousControls.pinch + (rawControls.pinch - previousControls.pinch) * 0.26 ∧
    (smoothStep previousControls rawControls 0).pinch =
      previousControls.pinch + (0 - previousControls.pinch) * smoothingWhenMissingHand ∧
    pinchAlphaApplied handCount < pinchAlphaApplied 0 := by
  refine ⟨by simp [smoothStep, h], by simp [smoothStep], ?_⟩
  simp only [pinchAlphaApplied, if_pos h, if_neg (lt_irrefl 0)]
  norm_num [smoothingWhenMissingHand]

/-- Claim C2 witness at hand count one. -/
theorem c2_witness :
    (0 : ℕ) < 1 ∧ pinchAlphaApplied 1 < pinchAlphaApplied 0 :=
  ⟨by norm_num,
   (c2_pinch_alpha_smaller_when_tracked 1 (by norm_num)
     EMPTY_CONTROLS EMPTY_CONTROLS).2.2⟩

/-- Claim C3, counterexample: with no hand tracked and a stale raw pinch of
`1`, the smoothed pinch is `0`, while exponential smoothing toward the raw
pinch value with the applied coefficient would give `0.42`. -/
theorem c3_counterexample :
    (smoothStep EMPTY_CONTROLS c3RawStale 0).pinch ≠
      smoothChannelSpec EMPTY_CONTROLS.pinch c3RawStale.pinch (pinchAlphaApplied 0) := by
  simp [smoothStep, smoothChannelSpec, EMPTY_CONTROLS, c3RawStale,
    pinchAlphaApplied]
  norm_num [smoothingWhenMissingHand]

/-- Claim C3 (amended): every channel of `smoothStep` is exact exponential
smoothing `previous + (target - previous) * alpha`; the target is the raw
channel value for tilt, lift, jaw and presence, while for pinch the target
is the raw value only while a hand is tracked and `0` otherwise. -/
theorem c3_smoother_exact_per_channel
    (previousControls rawControls : ControlsMetrics) (handCount : ℕ) :
    (smoothStep previousControls rawControls handCount).tilt =
      smoothChannelSpec previousControls.tilt rawControls.tilt smoothingWhenTracking ∧
    (smoothStep previousControls rawControls handCount).lift =
      smoothChannelSpec previousControls.lift rawControls.lift smoothingWhenTracking ∧
    (smoothStep previousControls rawControls handCount).jaw =
      smoothChannelSpec previousControls.jaw rawControls.jaw 0.2 ∧
    (smoothStep previousControls rawControls handCount).presence =
      smoothChannelSpec previousControls.presence rawControls.presence 0.3 ∧
    (smoothStep previousControls rawControls handCount).pinch =
      smoothChannelSpec previousControls.pinch
        (pinchTargetApplied rawControls handCount) (pinchAlphaApplied handCount) := by
  refine ⟨rfl, rfl, rfl, rfl, ?_⟩
  rw [smoothStep_pinch]
  rfl

/-- Claim C5: with the hand untracked on every tick, the pinch channel is
multiplied by `1 - smoothingWhenMissingHand` each tick, so from a
nonnegative pinch it stays nonnegative, never increases, and strictly
decreases toward `0` whenever it is nonzero — independently of the stale
raw vectors supplied on those ticks. -/
theorem c5_pinch_decays_untracked (start : ControlsMetrics)
    (raws : ℕ → ControlsMetrics) (h0 : 0 ≤ start.pinch) :
    ∀ n,
      0 ≤ (smoothTrace start raws (fun _ => 0) n).pinch ∧
      (smoothTrace start raws (fun _ => 0) (n + 1)).pinch =
        (1 - smoothingWhenMissingHand) *
          (smoothTrace start raws (fun _ => 0) n).pinch ∧
      (smoothTrace start raws (fun _ => 0) (n + 1)).pinch ≤
        (smoothTrace start raws (fun _ => 0) n).pinch ∧
      ((smoothTrace start raws (fun _ => 0) n).pinch ≠ 0 →
        (smoothTrace start raws (fun _ => 0) (n + 1)).pinch <
          (smoothTrace start raws (fun _ => 0) n).pinch) := by
  have hs0 : (0:ℝ) < smoothingWhenMissingHand := by
    norm_num [smoothingWhenMissingHand]
  have hs1 : smoothingWhenMissingHand ≤ 1 := by
    norm_num [smoothingWhenMissingHand]
  have hstep : ∀ n, (smoothTrace start raws (fun _ => 0) (n + 1)).pinch =
      (1 - smoothingWhenMissingHand) *
        (smoothTrace start raws (fun _ => 0) n).pinch := by
    intro n
    simp [smoothTrace, smoothStep]
    ring
  have hpos : ∀ n, 0 ≤ (smoothTrace start raws (fun _ => 0) n).pinch := by
    intro n
    induction n with
    | zero => exact h0
    | succ k ih =>
      rw [hstep k]
      exact mul_nonneg (by linarith) ih
  intro n
  refine ⟨hpos n, hstep n, ?_, ?_⟩
  · rw [hstep n]
    nlinarith [hpos n]
  · intro hne
    have hp : 0 < (smoothTrace start raws (fun _ => 0) n).pinch :=
      lt_of_le_of_ne (hpos n) (Ne.symm hne)
    rw [hstep n]
    nlinarith

/-- Claim C5 witness: one untracked tick from pinch `0.75` with stale raw
pinch `1` strictly decreases the pinch channel. -/
theorem c5_witness :
    (smoothTrace c5Start c5RawsStale (fun _ => 0) 1).pinch <
      (smoothTrace c5Start c5RawsStale (fun _ => 0) 0).pinch := by
  refine (c5_pinch_decays_untracked c5Start c5RawsStale
    (by norm_num [c5Start]) 0).2.2.2 ?_
  norm_num [smoothTrace, c5Start]

/-- Claim C7, counterexample: from a live state holding a nonzero smoothed
control vector, neither `stopLive` nor `resetLayout` restores the neutral
zero vector `EMPTY_CONTROLS` in the runtime smoothing memory. -/
theorem c7_counterexample :
    (stopLive c7State).runtime.smoothedControls ≠ EMPTY_CONTROLS ∧
    (resetLayout c7State).runtime.smoothedControls ≠ EMPTY_CONTROLS := by
  constructor <;>
    · intro h
      have htilt := congrArg ControlsMetrics.tilt h
      norm_num [stopLive, resetLayout, c7State, EMPTY_CONTROLS] at htilt

/-- Claim C7 (amended): `stopLive` and `resetLayout` leave the smoothed
control memory exactly as it was; only the creation of the runtime
initialises it to the neutral zero vector. -/
theorem c7_stop_reset_keep_smoothing_memory (s : StudioState) :
    (stopLive s).runtime.smoothedControls = s.runtime.smoothedControls ∧
    (resetLayout s).runtime.smoothedControls = s.runtime.smoothedControls ∧
    initialRuntime.smoothedControls = EMPTY_CONTROLS :=
  ⟨rfl, rfl, rfl⟩

/-- Claim C4, counterexample: holding an untracked hand and a stale raw
vector with pinch `1` fixed, the pinch error with respect to the raw target
does not shrink by the factor `1 - alpha` on the first tick — it stays
exactly `1` instead of becoming `0.58`. -/
theorem c4_counterexample :
    c4RawStale.pinch - (smoothIterate c4RawStale 0 EMPTY_CONTROLS 1).pinch = 1 ∧
    (1 - smoothingWhenMissingHand) *
      (c4RawStale.pinch - (smoothIterate c4RawStale 0 EMPTY_CONTROLS 0).pinch) = 0.58 ∧
    (1 : ℝ) ≠ 0.58 := by
  refine ⟨?_, ?_, by norm_num⟩
  · norm_num [smoothIterate, smoothStep, c4RawStale, EMPTY_CONTROLS]
  · norm_num [smoothIterate, c4RawStale, EMPTY_CONTROLS, smoothingWhenMissingHand]

/-- Claim C4 (amended): iterating the smoother with the raw vector and the
tracking state held fixed, each channel converges monotonically to its
effective target — the raw value for tilt, lift, jaw and presence, and
`pinchTargetApplied` (the raw pinch when tracked, `0` when untracked) for
pinch — with the per-channel error shrinking by the factor `1 - alpha` on
every tick and coming within any `ε > 0` after a bounded number of ticks. -/
theorem c4_iteration_converges (start rawControls : ControlsMetrics)
    (handCount : ℕ) (ε : ℝ) (hε : 0 < ε) :
    (∀ n,
      rawControls.tilt - (smoothIterate rawControls handCount start (n + 1)).tilt =
        (1 - smoothingWhenTracking) *
          (rawControls.tilt - (smoothIterate rawControls handCount start n).tilt) ∧
      rawControls.lift - (smoothIterate rawControls handCount start (n + 1)).lift =
        (1 - smoothingWhenTracking) *
          (rawControls.lift - (smoothIterate rawControls handCount start n).lift) ∧
      rawControls.jaw - (smoothIterate rawControls handCount start (n + 1)).jaw =
        (1 - 0.2) *
          (rawControls.jaw - (smoothIterate rawControls handCount start n).jaw) ∧
      rawControls.presence - (smoothIterate rawControls handCount start (n + 1)).presence =
        (1 - 0.3) *
          (rawControls.presence - (smoothIterate rawControls handCount start n).presence) ∧
      pinchTargetApplied rawControls handCount -
          (smoothIterate rawControls handCount start (n + 1)).pinch =
        (1 - pinchAlphaApplied handCount) *
          (pinchTargetApplied rawControls handCount -
            (smoothIterate rawControls handCount start n).pinch)) ∧
    (∀ n,
      |rawControls.tilt - (smoothIterate rawControls handCount start (n + 1)).tilt| ≤
        |rawControls.tilt - (smoothIterate rawControls handCount start n).tilt| ∧
      |rawControls.lift - (smoothIterate rawControls handCount start (n + 1)).lift| ≤
        |rawControls.lift - (smoothIterate rawControls handCount start n).lift| ∧
      |rawControls.jaw - (smoothIterate rawControls handCount start (n + 1)).jaw| ≤
        |rawControls.jaw - (smoothIterate rawControls handCount start n).jaw| ∧
      |rawControls.presence - (smoothIterate rawControls handCount start (n + 1)).presence| ≤
        |rawControls.presence - (smoothIterate rawControls handCount start n).presence| ∧
      |pinchTargetApplied rawControls handCount -
          (smoothIterate rawControls handCount start (n + 1)).pinch| ≤
        |pinchTargetApplied rawControls handCount -
          (smoothIterate rawControls handCount start n).pinch|) ∧
    (∃ N, ∀ n, N ≤ n →
      |rawControls.tilt - (smoothIterate rawControls handCount start n).tilt| < ε ∧
      |rawControls.lift - (smoothIterate rawControls handCount start n).lift| < ε ∧
      |rawControls.jaw - (smoothIterate rawControls handCount start n).jaw| < ε ∧
      |rawControls.presence - (smoothIterate rawControls handCount start n).presence| < ε ∧
      |pinchTargetApplied rawControls handCount -
          (smoothIterate rawControls handCount start n).pinch| < ε) := by
  have ht0 : (0:ℝ) < smoothingWhenTracking := by norm_num [smoothingWhenTracking]
  have ht1 : smoothingWhenTracking ≤ 1 := by norm_num [smoothingWhenTracking]
  have hp0 := pinchAlphaApplied_pos handCount
  have hp1 := pinchAlphaApplied_le_one handCount
  refine ⟨?_, ?_, ?_⟩
  · intro n
    refine ⟨?_, ?_, ?_, ?_, ?_⟩ <;>
      simp only [smoothIterate_tilt, smoothIterate_lift, smoothIterate_jaw,
        smoothIterate_presence, smoothIterate_pinch] <;>
      exact expIter_error _ _ _ n
  · intro n
    refine ⟨?_, ?_, ?_, ?_, ?_⟩
    · simp only [smoothIterate_tilt]
      exact expIter_abs_error_mono _ _ _ (le_of_lt ht0) ht1 n
    · simp only [smoothIterate_lift]
      exact expIter_abs_error_mono _ _ _ (le_of_lt ht0) ht1 n
    · simp only [smoothIterate_jaw]
      exact expIter_abs_error_mono _ _ _ (by norm_num) (by norm_num) n
    · simp only [smoothIterate_presence]
      exact expIter_abs_error_mono _ _ _ (by norm_num) (by norm_num) n
    · simp only [smoothIterate_pinch]
      exact expIter_abs_error_mono _ _ _ (le_of_lt hp0) hp1 n
  · obtain ⟨N1, hN1⟩ := expIter_eventually_close start.tilt rawControls.tilt
      smoothingWhenTracking ε ht0 ht1 hε
    obtain ⟨N2, hN2⟩ := expIter_eventually_close start.lift rawControls.lift
      smoothingWhenTracking ε ht0 ht1 hε
    obtain ⟨N3, hN3⟩ := expIter_eventually_close start.jaw rawControls.jaw
      0.2 ε (by norm_num) (by norm_num) hε
    obtain ⟨N4, hN4⟩ := expIter_eventually_close start.presence rawControls.presence
      0.3 ε (by norm_num) (by norm_num) hε
    obtain ⟨N5, hN5⟩ := expIter_eventually_close start.pinch
      (pinchTargetApplied rawControls handCount) (pinchAlphaApplied handCount)
      ε hp0 hp1 hε
    refine ⟨max N1 (max N2 (max N3 (max N4 N5))), fun n hn => ?_⟩
    simp only [max_le_iff] at hn
    obtain ⟨h1, h2, h3, h4, h5⟩ := hn
    exact ⟨by simp only [smoothIterate_tilt]; exact hN1 n h1,
      by simp only [smoothIterate_lift]; exact hN2 n h2,
      by simp only [smoothIterate_jaw]; exact hN3 n h3,
      by simp only [smoothIterate_presence]; exact hN4 n h4,
      by simp only [smoothIterate_pinch]; exact hN5 n h5⟩

/-- Claim C4 witness: from the zero vector with the zero raw vector held
fixed and no hand tracked, every channel error eventually stays below one. -/
theorem c4_witness :
    ∃ N, ∀ n, N ≤ n →
      |EMPTY_CONTROLS.tilt - (smoothIterate EMPTY_CONTROLS 0 EMPTY_CONTROLS n).tilt| < 1 ∧
      |EMPTY_CONTROLS.lift - (smoothIterate EMPTY_CONTROLS 0 EMPTY_CONTROLS n).lift| < 1 ∧
      |EMPTY_CONTROLS.jaw - (smoothIterate EMPTY_CONTROLS 0 EMPTY_CONTROLS n).jaw| < 1 ∧
      |EMPTY_CONTROLS.presence - (smoothIterate EMPTY_CONTROLS 0 EMPTY_CONTROLS n).presence| < 1 ∧
      |pinchTargetApplied EMPTY_CONTROLS 0 -
          (smoothIterate EMPTY_CONTROLS 0 EMPTY_CONTROLS n).pinch| < 1 :=
  (c4_iteration_converges EMPTY_CONTROLS EMPTY_CONTROLS 0 1 (by norm_num)).2.2

/-- Claim C6, counterexample: the prototype `FaceExtractNode` does not clamp
the jaw metric — with lip landmarks a full frame height apart it reports
jaw `1`, far above `jawMax = 0.085`. -/
theorem c6_counterexample :
    (faceExtractMetrics [c6FaceList]).jaw = 1 ∧
    ¬ (faceExtractMetrics [c6FaceList]).jaw ≤ 0.085 := by
  have h13 : c6FaceList[13]? = some ⟨0, 0⟩ := rfl
  have h14 : c6FaceList[14]? = some ⟨0, 1⟩ := rfl
  have h : (faceExtractMetrics [c6FaceList]).jaw = 1 := by
    simp [faceExtractMetrics, h13, h14, distance2d]
  refine ⟨h, ?_⟩
  rw [h]
  norm_num

/-- Claim C6 (amended): in the NodeStudio extractor the jaw metric equals
the lip distance clamped to `[0, 0.085]`, hence never exceeds `jawMax` for
any detector output; the prototype `FaceExtractNode`, however, reports the
unclamped lip distance. -/
theorem c6_jaw_clamped_in_studio (faces : List (List Landmark)) :
    (faceMetricsOf faces).jaw =
      clamp (distance2d (faces.head?.bind fun f => f[13]?)
        (faces.head?.bind fun f => f[14]?)) 0 0.085 ∧
    0 ≤ (faceMetricsOf faces).jaw ∧
    (faceMetricsOf faces).jaw ≤ 0.085 ∧
    (∀ f0, faces.head? = some f0 →
      (faceExtractMetrics faces).jaw = distance2d f0[13]? f0[14]?) := by
  refine ⟨rfl, le_clamp _ _ _, clamp_le _ _ _ (by norm_num), ?_⟩
  intro f0 h
  simp [faceExtractMetrics, h]

/-- Claim C6 witness at the concrete face point set. -/
theorem c6_witness :
    0 ≤ (faceMetricsOf [c6FaceList]).jaw ∧
    (faceExtractMetrics [c6FaceList]).jaw = distance2d c6FaceList[13]? c6FaceList[14]? :=
  ⟨(c6_jaw_clamped_in_studio [c6FaceList]).2.1,
   (c6_jaw_clamped_in_studio [c6FaceList]).2.2.2 c6FaceList rfl⟩

/-- Claim C8: in one full `updateNodeSnapshots` pass, no observed node means
zero encoded preview images; exactly one observed node means exactly one
encoded image (with the always-mounted stage canvas present); and an image
is only ever encoded for a source some observed node requests. -/
theorem c8_preview_encoding_counts (nodes : List StudioNode) :
    ((∀ node ∈ nodes, node.data.previewEnabled = false) →
      ∀ stageCanvasPresent, encodedPreviewCount nodes stageCanvasPresent = 0) ∧
    (∀ node, nodes.filter (fun n => n.data.previewEnabled) = [node] →
      encodedPreviewCount nodes true = 1) ∧
    (∀ stageCanvasPresent key, encodesPreview nodes stageCanvasPresent key = true →
      ∃ node ∈ nodes, node.data.previewEnabled = true ∧
        node.data.previewSource = key) := by
  refine ⟨?_, ?_, ?_⟩
  · intro hoff stageCanvasPresent
    have hnone : ∀ key ∈ previewKeys,
        ¬ encodesPreview nodes stageCanvasPresent key = true := by
      intro key _ hk
      unfold encodesPreview at hk
      rw [Bool.and_eq_true] at hk
      have hact := hk.1
      unfold isActiveSource at hact
      obtain ⟨node, hmem, hcond⟩ := List.any_eq_true.mp hact
      rw [Bool.and_eq_true] at hcond
      have hen := hcond.1
      rw [hoff node hmem] at hen
      exact Bool.false_ne_true hen
    unfold encodedPreviewCount
    rw [List.length_eq_zero, List.filter_eq_nil_iff]
    exact hnone
  · intro node hfilter
    have hmemp : node ∈ nodes.filter (fun n => n.data.previewEnabled) := by
      rw [hfilter]
      exact List.mem_singleton_self _
    have hmem : node ∈ nodes := (List.mem_filter.mp hmemp).1
    have hen : node.data.previewEnabled = true := by
      simpa using (List.mem_filter.mp hmemp).2
    have huniq : ∀ m ∈ nodes, m.data.previewEnabled = true → m = node := by
      intro m hm hmen
      have hmf : m ∈ nodes.filter (fun n => n.data.previewEnabled) :=
        List.mem_filter.mpr ⟨hm, by simpa using hmen⟩
      rw [hfilter] at hmf
      simpa using hmf
    have hkey : ∀ key ∈ previewKeys,
        encodesPreview nodes true key = decide (node.data.previewSource = key) := by
      intro key _
      by_cases hsrc : node.data.previewSource = key
      · have h1 : encodesPreview nodes true key = true := by
          unfold encodesPreview
          rw [Bool.and_eq_true]
          refine ⟨?_, ?_⟩
          · unfold isActiveSource
            refine List.any_eq_true.mpr ⟨node, hmem, ?_⟩
            rw [Bool.and_eq_true]
            exact ⟨hen, decide_eq_true hsrc⟩
          · cases key <;> rfl
        rw [h1, decide_eq_true hsrc]
      · cases henc : encodesPreview nodes true key with
        | false => rw [decide_eq_false hsrc]
        | true =>
          exfalso
          unfold encodesPreview at henc
          rw [Bool.and_eq_true] at henc
          have hact := henc.1
          unfold isActiveSource at hact
          obtain ⟨m, hm, hcond⟩ := List.any_eq_true.mp hact
          rw [Bool.and_eq_true] at hcond
          have hmen := hcond.1
          have hmsrc : m.data.previewSource = key := of_decide_eq_true hcond.2
          have hmn := huniq m hm hmen
          subst hmn
          exact hsrc hmsrc
    have hcount : encodedPreviewCount nodes true =
        (previewKeys.filter fun key => decide (node.data.previewSource = key)).length := by
      unfold encodedPreviewCount
      rw [List.filter_congr hkey]
    rw [hcount]
    cases hsrc : node.data.previewSource <;> decide
  · intro stageCanvasPresent key hk
    unfold encodesPreview at hk
    rw [Bool.and_eq_true] at hk
    have hact := hk.1
    unfold isActiveSource at hact
    obtain ⟨node, hmem, hcond⟩ := List.any_eq_true.mp hact
    rw [Bool.and_eq_true] at hcond
    exact ⟨node, hmem, hcond.1, of_decide_eq_true hcond.2⟩

/-- Claim C8 witness: the initial graph (no previews) encodes zero images;
with exactly the spawned mapper node observed, exactly one is encoded. -/
theorem c8_witness :
    encodedPreviewCount INITIAL_NODES true = 0 ∧
    encodedPreviewCount c8Nodes true = 1 :=
  ⟨(c8_preview_encoding_counts INITIAL_NODES).1 (by decide) true,
   (c8_preview_encoding_counts c8Nodes).2.1 c8OnNode (by decide)⟩

/-- With every detected landmark inside the unit square, the raw control
vector built inside `runFrame` already satisfies the documented ranges. -/
theorem rawControlsOf_bounds (faces hands : List (List Landmark))
    (hf : ∀ f ∈ faces, ∀ p ∈ f, landmarkInUnit p)
    (hh : ∀ g ∈ hands, ∀ p ∈ g, landmarkInUnit p) :
    controlsInRange (rawControlsOf (faceMetricsOf faces) (handMetricsOf hands)) := by
  have hnose : 0 ≤ (faceMetricsOf faces).noseX ∧ (faceMetricsOf faces).noseX ≤ 1 := by
    have hrepr : (faceMetricsOf faces).noseX =
        ((((faces.head?.bind fun f => f[1]?) <|>
          ((faces.head?.bind fun f => f[4]?) <|> (faces.head?.bind fun f => f[0]?))).map
            Landmark.x).getD 0.5) := rfl
    rw [hrepr]
    cases hn : ((faces.head?.bind fun f => f[1]?) <|>
        ((faces.head?.bind fun f => f[4]?) <|> (faces.head?.bind fun f => f[0]?))) with
    | none =>
      simp
      norm_num
    | some p =>
      have hp : ∃ f ∈ faces, p ∈ f := by
        rcases orElse_eq_some hn with h | h
        · exact mem_of_bind_getElem h
        · rcases orElse_eq_some h with h | h <;> exact mem_of_bind_getElem h
      obtain ⟨f, hfm, hpm⟩ := hp
      obtain ⟨hx0, hx1, _, _⟩ := hf f hfm p hpm
      simp
      exact ⟨hx0, hx1⟩
  have hpalm : 0 ≤ (handMetricsOf hands).palmY ∧ (handMetricsOf hands).palmY ≤ 1 := by
    have hrepr : (handMetricsOf hands).palmY =
        (((hands.head?.bind fun h => h[0]?).map Landmark.y).getD 0.5) := rfl
    rw [hrepr]
    cases hw : (hands.head?.bind fun h => h[0]?) with
    | none =>
      simp
      norm_num
    | some p =>
      obtain ⟨g, hgm, hpm⟩ := mem_of_bind_getElem hw
      obtain ⟨_, _, hy0, hy1⟩ := hh g hgm p hpm
      simp
      exact ⟨hy0, hy1⟩
  have hpinch0 : 0 ≤ (handMetricsOf hands).pinch := le_clamp _ _ _
  have hpinch1 : (handMetricsOf hands).pinch ≤ 1 := clamp_le _ _ _ (by norm_num)
  have hjaw0 : 0 ≤ (faceMetricsOf faces).jaw := le_clamp _ _ _
  have hjaw1 : (faceMetricsOf faces).jaw ≤ 0.085 := clamp_le _ _ _ (by norm_num)
  unfold controlsInRange rawControlsOf
  refine ⟨by simp; linarith [hnose.1], by simp; linarith [hnose.2],
    by simp; linarith [hpalm.2], by simp; linarith [hpalm.1],
    by simpa using hpinch0, by simpa using hpinch1,
    by simpa using hjaw0, by simpa using hjaw1, ?_, ?_⟩
  · simp only [ControlsMetrics.mk.injEq]
    exact le_max_of_le_left (by split <;> norm_num)
  · simp only [ControlsMetrics.mk.injEq]
    exact max_le (by split <;> norm_num) (by split <;> norm_num)

/-- Claim C9: one extraction-plus-smoothing step of `runFrame` preserves the
documented control ranges when every detected landmark lies in the unit
square. -/
theorem c9_controls_range_invariant (previousControls : ControlsMetrics)
    (faces hands : List (List Landmark))
    (hprev : controlsInRange previousControls)
    (hf : ∀ f ∈ faces, ∀ p ∈ f, landmarkInUnit p)
    (hh : ∀ g ∈ hands, ∀ p ∈ g, landmarkInUnit p) :
    controlsInRange (runFrameControls previousControls faces hands) := by
  have hraw := rawControlsOf_bounds faces hands hf hh
  obtain ⟨hrt1, hrt2, hrl1, hrl2, hrp1, hrp2, hrj1, hrj2, hrs1, hrs2⟩ := hraw
  obtain ⟨hpt1, hpt2, hpl1, hpl2, hpp1, hpp2, hpj1, hpj2, hps1, hps2⟩ := hprev
  have ht0 : (0:ℝ) ≤ smoothingWhenTracking := by norm_num [smoothingWhenTracking]
  have ht1 : smoothingWhenTracking ≤ 1 := by norm_num [smoothingWhenTracking]
  have htb : 0 ≤ pinchTargetApplied
        (rawControlsOf (faceMetricsOf faces) (handMetricsOf hands))
        (handMetricsOf hands).count ∧
      pinchTargetApplied (rawControlsOf (faceMetricsOf faces) (handMetricsOf hands))
        (handMetricsOf hands).count ≤ 1 := by
    unfold pinchTargetApplied
    split
    · exact ⟨hrp1, hrp2⟩
    · norm_num
  have hpa0 := pinchAlphaApplied_pos (handMetricsOf hands).count
  have hpa1 := pinchAlphaApplied_le_one (handMetricsOf hands).count
  unfold runFrameControls
  unfold controlsInRange
  refine ⟨?_, ?_, ?_, ?_, ?_, ?_, ?_, ?_, ?_, ?_⟩
  · exact (smooth_within (-0.5) 0.5 _ _ _ hpt1 hpt2 hrt1 hrt2 ht0 ht1).1
  · exact (smooth_within (-0.5) 0.5 _ _ _ hpt1 hpt2 hrt1 hrt2 ht0 ht1).2
  · exact (smooth_within 0 1 _ _ _ hpl1 hpl2 hrl1 hrl2 ht0 ht1).1
  · exact (smooth_within 0 1 _ _ _ hpl1 hpl2 hrl1 hrl2 ht0 ht1).2
  · rw [smoothStep_pinch]
    exact (smooth_within 0 1 _ _ _ hpp1 hpp2 htb.1 htb.2 (le_of_lt hpa0) hpa1).1
  · rw [smoothStep_pinch]
    exact (smooth_within 0 1 _ _ _ hpp1 hpp2 htb.1 htb.2 (le_of_lt hpa0) hpa1).2
  · exact (smooth_within 0 0.085 _ _ _ hpj1 hpj2 hrj1 hrj2 (by norm_num) (by norm_num)).1
  · exact (smooth_within 0 0.085 _ _ _ hpj1 hpj2 hrj1 hrj2 (by norm_num) (by norm_num)).2
  · exact (smooth_within 0 1 _ _ _ hps1 hps2 hrs1 hrs2 (by norm_num) (by norm_num)).1
  · exact (smooth_within 0 1 _ _ _ hps1 hps2 hrs1 hrs2 (by norm_num) (by norm_num)).2

/-- Claim C9 witness: one step from the neutral vector with nothing
detected stays in range. -/
theorem c9_witness : controlsInRange (runFrameControls EMPTY_CONTROLS [] []) :=
  c9_controls_range_invariant EMPTY_CONTROLS [] []
    (by norm_num [controlsInRange, EMPTY_CONTROLS]) (by simp) (by simp)

/-- Claim C10: toggling one node's preview touches only the node with the
matching id — any other node is returned unchanged at its position — and
when the toggle turns the flag off, the target node keeps all its data
except that the flag clears, the cached preview url is dropped and the hint
reverts to the preview-off hint. -/
theorem c10_toggle_preview_isolated (nodes : List StudioNode) (nodeId : String) :
    (toggleNodePreview nodes nodeId).length = nodes.length ∧
    (∀ (i : ℕ) (node : StudioNode), nodes[i]? = some node → node.id ≠ nodeId →
      (toggleNodePreview nodes nodeId)[i]? = some node) ∧
    (∀ (i : ℕ) (node : StudioNode), nodes[i]? = some node → node.id = nodeId →
      node.data.previewEnabled = true →
      (toggleNodePreview nodes nodeId)[i]? = some
        { node with data :=
            { node.data with
              previewEnabled := false
              previewUrl := none
              previewHint := PREVIEW_OFF_HINT } }) := by
  refine ⟨List.length_map _ _, ?_, ?_⟩
  · intro i node hget hne
    rw [toggleNodePreview, List.getElem?_map, hget]
    simp [hne]
  · intro i node hget heq hen
    rw [toggleNodePreview, List.getElem?_map, hget]
    simp [heq, hen]

/-- Claim C10 witness on the concrete two-node list. -/
theorem c10_witness :
    (toggleNodePreview c10Nodes "face")[1]? = some c10NodeB ∧
    (toggleNodePreview c10Nodes "face")[0]? = some
      { c10NodeA with data :=
          { c10NodeA.data with
            previewEnabled := false
            previewUrl := none
            previewHint := PREVIEW_OFF_HINT } } :=
  ⟨(c10_toggle_preview_isolated c10Nodes "face").2.1 1 c10NodeB rfl (by decide),
   (c10_toggle_preview_isolated c10Nodes "face").2.2 0 c10NodeA rfl rfl rfl⟩

end Kineforge
